import Mathlib

/-!
Shallow embedding of the heuristic photo-scoring engine of this repository
(src/backend/services/imageAnalysisService.js and the fuller revision in
src/unnamed/part_000).  Detection values (confidences, coordinates, RGB
channels) are modelled as rationals; JavaScript number helpers
(Math.round, Math.floor, Math.min/Math.max clamping) are modelled
explicitly.  A JavaScript TypeError (thrown when a face record lacks a
bounding polygon or enough vertices) is modelled by an Option-valued
function returning none.
-/

namespace ImageAnalysis

/-- JavaScript Math.round on a rational: floor of (q + 1/2). -/
def jsRound (q : ℚ) : ℤ := ⌊q + 1/2⌋

/-- JavaScript Math.floor on a rational. -/
def jsFloor (q : ℚ) : ℤ := ⌊q⌋

/-- `Math.min(100, Math.max(0, score))`, the clamp every scoring function
applies before returning. -/
def clamp100 (s : ℤ) : ℤ := min 100 (max 0 s)

/-- A corner point of a face bounding polygon (Google Vision vertex). -/
structure Vertex where
  x : ℚ
  y : ℚ
deriving Repr, DecidableEq

/-- A detected face.  `boundingPoly` is `none` when the bounding polygon
(or its vertex list) is absent from the record; accessing it then throws
in the JavaScript source. -/
structure Face where
  boundingPoly : Option (List Vertex)
deriving Repr, DecidableEq

/-- A localized object annotation: a name and a confidence score. -/
structure DetectedObject where
  name : String
  score : ℚ
deriving Repr, DecidableEq

/-- A scene label annotation: a description and a confidence score. -/
structure Label where
  description : String
  score : ℚ
deriving Repr, DecidableEq

/-- RGB channels of a dominant color. -/
structure RGB where
  red : ℚ
  green : ℚ
  blue : ℚ
deriving Repr, DecidableEq

/-- A dominant-color entry: channels plus a coverage fraction. -/
structure ColorInfo where
  color : RGB
  score : ℚ
deriving Repr, DecidableEq

/-- The canonical detection record consumed by the scoring functions. -/
structure DetectionRecord where
  labels : List Label
  faces : List Face
  objects : List DetectedObject
  colors : List ColorInfo
deriving Repr, DecidableEq

/-- `analyzeComposition(faces, objects, landmarks)` from the source.  The
faces branch reads `faces[0].boundingPoly.vertices[0]` and `...[2]`; when
the polygon is absent or has fewer than three vertices the JavaScript
code throws a TypeError, modelled here as `none`.  `landmarks` is the
labels list (the callers pass `labels`). -/
def analyzeComposition (faces : List Face) (objects : List DetectedObject)
    (landmarks : List Label) : Option ℤ :=
  match faces with
  | face :: _ =>
    match face.boundingPoly with
    | some vertices =>
      match vertices[0]?, vertices[2]? with
      | some v0, some v2 =>
        let cx : ℚ := (v0.x + v2.x) / 2
        let cy : ℚ := (v0.y + v2.y) / 2
        let s1 : ℤ := 40 + (if 33/100 < cy ∧ cy < 67/100 then 15 else 0)
        let s2 : ℤ := s1 + (if 33/100 < cx ∧ cx < 67/100 then 15 else 0)
        let s3 : ℤ := s2 + (if 0 < landmarks.length then 30 else 0)
        some (clamp100 s3)
      | _, _ => none
    | none => none
  | [] =>
    let s1 : ℤ :=
      if 0 < objects.length then
        50 + (if 2 ≤ objects.length ∧ objects.length ≤ 5 then 20
              else if 6 ≤ objects.length then 15 else 0)
      else 0
    let s2 : ℤ := s1 + (if 0 < landmarks.length then 30 else 0)
    some (clamp100 s2)

/-- Mean object-detection confidence:
`objects.reduce((sum, obj) => sum + obj.score, 0) / objects.length`. -/
def meanScore (objects : List DetectedObject) : ℚ :=
  (objects.foldl (fun s o => s + o.score) 0) / (objects.length : ℚ)

/-- `analyzeFocus(imageProperties, objects)` from the source; the
`imageProperties` argument is never read and is omitted here. -/
def analyzeFocus (objects : List DetectedObject) : ℤ :=
  if 0 < objects.length then
    let avg := meanScore objects
    let band : ℤ :=
      if 8/10 < avg then 40
      else if 6/10 < avg then 30
      else if 4/10 < avg then 20
      else if 2/10 < avg then 10
      else 0
    let extra : ℤ := if 3 < objects.length then 20 else 0
    clamp100 (40 + band + extra)
  else
    clamp100 50

/-- `analyzeExposure(imageProperties, colors)` from the source; the
`imageProperties` argument is never read and is omitted here. -/
def analyzeExposure (colors : List ColorInfo) : ℤ :=
  match colors with
  | c :: _ =>
    let brightness : ℚ := (c.color.red + c.color.green + c.color.blue) / 3
    let b1 : ℤ :=
      if 80 ≤ brightness ∧ brightness ≤ 200 then 50
      else if 60 ≤ brightness ∧ brightness ≤ 220 then 35
      else if 40 ≤ brightness ∧ brightness ≤ 240 then 20
      else 10
    let b2 : ℤ :=
      if 5 ≤ colors.length then 20
      else if 3 ≤ colors.length then 15
      else if 2 ≤ colors.length then 5
      else 0
    clamp100 (30 + b1 + b2)
  | [] => clamp100 50

/-- `analyzeColor(colors, imageProperties)` from the source; the
`imageProperties` argument is never read and is omitted here. -/
def analyzeColor (colors : List ColorInfo) : ℤ :=
  match colors with
  | c :: rest =>
    let variety : ℤ :=
      if 6 ≤ colors.length then 35
      else if 4 ≤ colors.length then 25
      else if 2 ≤ colors.length then 15
      else 5
    let balance : ℤ :=
      if 2/10 < c.score ∧ c.score < 8/10 then 20
      else if 1/10 < c.score ∧ c.score < 9/10 then 15
      else 5
    let contrastBonus : ℤ :=
      match rest with
      | c2 :: _ =>
        let contrast : ℚ :=
          |(c.color.red + c.color.green + c.color.blue) -
            (c2.color.red + c2.color.green + c2.color.blue)| / 3
        if 80 < contrast then 15
        else if 50 < contrast then 10
        else if 20 < contrast then 5
        else 0
      | [] => 0
    clamp100 (30 + variety + balance + contrastBonus)
  | [] => clamp100 30

/-- `Math.round((composition + focus + exposure + color) / 4)`. -/
def overallOf (c f e k : ℤ) : ℤ := jsRound (((c + f + e + k : ℤ) : ℚ) / 4)

/- Recommendation strings of `generateRecommendations`
(src/backend/services/imageAnalysisService.js, lines 332-387). -/

def recComposition : String :=
  "Try using the rule of thirds - position key subjects along the grid lines for better composition"

def recFocus : String :=
  "Consider using a faster shutter speed or better stabilization for sharper focus"

def recExposure : String :=
  "Adjust exposure settings - try exposure compensation or different metering modes"

def recColor : String :=
  "Experiment with white balance settings or post-processing to enhance color accuracy"

def recPortrait : String :=
  "Great portrait detected! Consider using portrait mode or wider aperture for better background blur"

def recLandscape : String :=
  "Beautiful landscape! Try using a polarizing filter to enhance sky contrast and reduce reflections"

def recBusyScene : String :=
  "Rich scene with multiple subjects - consider simplifying composition for stronger visual impact"

def recCreative : String :=
  "Excellent technical execution! Try experimenting with creative angles or lighting for artistic effect"

def recRaw : String :=
  "Consider shooting in RAW format to have more flexibility in post-processing exposure and color"

def recDefault : String :=
  "Well-composed image! Continue exploring different subjects and lighting conditions"

def landscapeKeyword : String := "landscape"

/-- `s.toLowerCase().includes(landscape)`: the lower-cased string splits
into more than one piece on the keyword iff the keyword occurs in it. -/
def containsLandscape (s : String) : Bool :=
  1 < ((s.toLower).splitOn landscapeKeyword).length

/-- `labels.some(label => label.description && lower-cased description includes the landscape keyword)`. -/
def hasLandscapeLabel (labels : List Label) : Bool :=
  labels.any (fun l => l.description ≠ "" && containsLandscape l.description)

/-- `generateRecommendations(compositionScore, focusScore, exposureScore,
colorScore, labels, faces, objects)` from
src/backend/services/imageAnalysisService.js: four per-sub-score
deficiency rules (threshold 65), three subject rules, two combination
rules, a default when nothing fired, then `slice(0, 3)`.  (The revision
in src/unnamed/part_000 is identical except that it omits the RAW-format
combination rule.) -/
def generateRecommendations (compositionScore focusScore exposureScore colorScore : ℤ)
    (labels : List Label) (faces : List Face) (objects : List DetectedObject) : List String :=
  let recs : List String :=
    (if compositionScore < 65 then [recComposition] else []) ++
    (if focusScore < 65 then [recFocus] else []) ++
    (if exposureScore < 65 then [recExposure] else []) ++
    (if colorScore < 65 then [recColor] else []) ++
    (if 0 < faces.length then [recPortrait] else []) ++
    (if hasLandscapeLabel labels then [recLandscape] else []) ++
    (if 3 < objects.length then [recBusyScene] else []) ++
    (if 80 ≤ compositionScore ∧ 80 ≤ focusScore then [recCreative] else []) ++
    (if exposureScore < 60 ∧ colorScore < 60 then [recRaw] else [])
  let recs2 := if recs.length = 0 then [recDefault] else recs
  recs2.take 3

/- Categorical descriptor groups of the analysis result object. -/

structure CompositionDesc where
  ruleOfThirds : String
  balance : String
  leadingLines : String
  symmetry : String
deriving Repr, DecidableEq

structure FocusDesc where
  sharpness : String
  depthOfField : String
  focusPoint : String
deriving Repr, DecidableEq

structure ExposureDesc where
  level : String
  highlights : String
  shadows : String
  dynamicRange : String
deriving Repr, DecidableEq

structure ColorDesc where
  whiteBalance : String
  contrast : String
  saturation : String
deriving Repr, DecidableEq

/-- The `composition` descriptor block of the result object (note the
source derives `balance` from the focus score). -/
def compositionDescOf (compositionScore focusScore : ℤ)
    (objects : List DetectedObject) : CompositionDesc where
  ruleOfThirds :=
    if 85 ≤ compositionScore then "Well Applied"
    else if 70 ≤ compositionScore then "Partially Applied"
    else "Needs Improvement"
  balance :=
    if 85 ≤ focusScore then "Well Balanced"
    else if 70 ≤ focusScore then "Balanced"
    else "Slightly Unbalanced"
  leadingLines := if 2 < objects.length then "Present" else "Subtle"
  symmetry := if 80 ≤ compositionScore then "Good" else "Fair"

/-- The `focus` descriptor block of the result object. -/
def focusDescOf (focusScore : ℤ) (faces : List Face)
    (objects : List DetectedObject) : FocusDesc where
  sharpness :=
    if 85 ≤ focusScore then "Very Sharp"
    else if 70 ≤ focusScore then "Sharp"
    else "Slightly Soft"
  depthOfField := if 1 < objects.length then "Appropriate" else "Shallow"
  focusPoint := if 0 < faces.length then "Well Placed" else "Centered"

/-- The `exposure` descriptor block of the result object. -/
def exposureDescOf (exposureScore : ℤ) (colors : List ColorInfo) : ExposureDesc where
  level :=
    if 85 ≤ exposureScore then "Perfectly Exposed"
    else if 70 ≤ exposureScore then "Well Exposed"
    else "Needs Adjustment"
  highlights :=
    match colors with
    | c :: _ => if c.score < 8/10 then "Well Controlled" else "Preserved"
    | [] => "Preserved"
  shadows := if 75 ≤ exposureScore then "Detailed" else "Acceptable"
  dynamicRange := if 3 ≤ colors.length then "Good" else "Limited"

/-- The `color` descriptor block of the result object. -/
def colorDescOf (colorScore : ℤ) (colors : List ColorInfo) : ColorDesc where
  whiteBalance :=
    if 80 ≤ colorScore then "Natural"
    else if 70 ≤ colorScore then "Slightly Warm"
    else "Needs Adjustment"
  contrast :=
    if 85 ≤ colorScore then "Balanced"
    else if 70 ≤ colorScore then "Good"
    else "Low"
  saturation := if 3 ≤ colors.length then "Rich" else "Moderate"

/-- The deterministic fields of the vision-path analysis result: the four
sub-scores, the rounded-mean overall score, the four categorical
descriptor groups and the recommendation list.  The source result object
additionally carries `analysisDate` (wall clock), `processingTime` and
`confidence` fields that are time- or random-valued and are not part of
the scoring output the spec describes. -/
structure FullResult where
  analysisMethod : String
  compositionScore : ℤ
  focusScore : ℤ
  exposureScore : ℤ
  colorScore : ℤ
  overallScore : ℤ
  composition : CompositionDesc
  focus : FocusDesc
  exposure : ExposureDesc
  color : ColorDesc
  recommendations : List String
deriving Repr, DecidableEq

def googleVisionTag : String := "GOOGLE_VISION"

/-- The scoring block of `analyzeImageWithGoogleVision`
(src/unnamed/part_000, lines 450-584; the identical block appears in
`analyzeImageWithAI` of src/backend/services/imageAnalysisService.js with
tag REAL_AI): given a detection record, compute the four sub-scores, the
rounded-mean overall score, the descriptors and the recommendations.
`none` models the TypeError escaping from `analyzeComposition` (caught by
the surrounding try, which then falls back). -/
def analyzeDetections (d : DetectionRecord) : Option FullResult :=
  match analyzeComposition d.faces d.objects d.labels with
  | some compositionScore =>
    let focusScore := analyzeFocus d.objects
    let exposureScore := analyzeExposure d.colors
    let colorScore := analyzeColor d.colors
    some {
      analysisMethod := googleVisionTag
      compositionScore := compositionScore
      focusScore := focusScore
      exposureScore := exposureScore
      colorScore := colorScore
      overallScore := overallOf compositionScore focusScore exposureScore colorScore
      composition := compositionDescOf compositionScore focusScore d.objects
      focus := focusDescOf focusScore d.faces d.objects
      exposure := exposureDescOf exposureScore d.colors
      color := colorDescOf colorScore d.colors
      recommendations :=
        generateRecommendations compositionScore focusScore exposureScore colorScore
          d.labels d.faces d.objects }
  | none => none

/- Fallback/mock generator (src/unnamed/part_000, lines 642-714). -/

/-- The four independent `Math.random()` draws of the fallback generator,
each in [0, 1). -/
structure FallbackDraws where
  r1 : ℚ
  r2 : ℚ
  r3 : ℚ
  r4 : ℚ
deriving Repr, DecidableEq

/-- `const base = 40` in `generateFallbackAnalysis` of src/unnamed/part_000. -/
def fallbackBase : ℤ := 40

/-- `const variance = 40` in `generateFallbackAnalysis` of src/unnamed/part_000. -/
def fallbackVariance : ℤ := 40

/-- `base + Math.floor(Math.random() * variance)`. -/
def fallbackScore (r : ℚ) : ℤ := fallbackBase + jsFloor (r * (fallbackVariance : ℚ))

def fallbackTag : String := "FALLBACK"

def recFallback1 : String :=
  "Consider experimenting with different angles for more dynamic composition"

def recFallback2 : String :=
  "Try adjusting exposure slightly to enhance detail in shadows"

def recFallback3 : String :=
  "Experiment with different focal points for improved visual interest"

/-- The fixed canned recommendation list of the fallback generator. -/
def fallbackRecommendations : List String := [recFallback1, recFallback2, recFallback3]

/-- The score- and recommendation-carrying fields of the fallback result
object.  The remaining fields of the source object (random categorical
descriptors, random confidence and processing time, canned aiAnalysis
block) are random- or time-valued dressing not referenced by the claims. -/
structure FallbackResult where
  analysisMethod : String
  compositionScore : ℤ
  focusScore : ℤ
  exposureScore : ℤ
  colorScore : ℤ
  overallScore : ℤ
  recommendations : List String
deriving Repr, DecidableEq

/-- `generateFallbackAnalysis` of src/unnamed/part_000: four sub-score
draws from base 40 / variance 40, rounded-mean overall, tag FALLBACK and
the fixed three-item recommendation list. -/
def generateFallbackAnalysis (dr : FallbackDraws) : FallbackResult :=
  let compositionScore := fallbackScore dr.r1
  let focusScore := fallbackScore dr.r2
  let exposureScore := fallbackScore dr.r3
  let colorScore := fallbackScore dr.r4
  { analysisMethod := fallbackTag
    compositionScore := compositionScore
    focusScore := focusScore
    exposureScore := exposureScore
    colorScore := colorScore
    overallScore := overallOf compositionScore focusScore exposureScore colorScore
    recommendations := fallbackRecommendations }

/- Custom-model path and backend dispatch (src/unnamed/part_000). -/

/-- The JSON object parsed from the stdout of the Python model; any field may
be absent. -/
structure ModelOutput where
  error : Option String
  aesthetic_score : Option ℚ
  composition_score : Option ℚ
  focus_score : Option ℚ
  exposure_score : Option ℚ
  color_score : Option ℚ
  confidence : Option ℚ
deriving Repr, DecidableEq

/-- JavaScript `v || dflt` for an optional numeric field: an absent field
and a zero value are both falsy. -/
def jsOrQ (v : Option ℚ) (dflt : ℚ) : ℚ :=
  match v with
  | some x => if x = 0 then dflt else x
  | none => dflt

def customTag : String := "CUSTOM_AI"

/-- Score fields of the custom-model analysis result in
`analyzeImageWithCustomAI` (src/unnamed/part_000, lines 192-282). -/
structure CustomResult where
  analysisMethod : String
  aestheticScore : ℚ
  compositionScore : ℚ
  focusScore : ℚ
  exposureScore : ℚ
  colorScore : ℚ
  overallScore : ℤ
deriving Repr, DecidableEq

/-- The successful custom-model result construction. -/
def customResultOf (m : ModelOutput) : CustomResult :=
  let aestheticScore := jsOrQ m.aesthetic_score 50
  { analysisMethod := customTag
    aestheticScore := aestheticScore
    compositionScore := jsOrQ m.composition_score aestheticScore
    focusScore := jsOrQ m.focus_score aestheticScore
    exposureScore := jsOrQ m.exposure_score aestheticScore
    colorScore := jsOrQ m.color_score aestheticScore
    overallScore := jsRound aestheticScore }

/-- The result of the full analysis dispatch: custom-model result, Google
Vision result, or fallback result. -/
inductive AnalysisResult where
  | custom (r : CustomResult)
  | vision (r : FullResult)
  | fallback (r : FallbackResult)
deriving Repr, DecidableEq

/-- The `analysisMethod` tag of whichever result was produced. -/
def methodOf : AnalysisResult → String
  | .custom r => r.analysisMethod
  | .vision r => r.analysisMethod
  | .fallback r => r.analysisMethod

/-- `analyzeImageWithGoogleVision` (src/unnamed/part_000): on a usable
detection record the vision result is returned; if the vision call failed
(client missing, API error) or scoring itself threw, the catch block
returns `generateFallbackAnalysis`.  The external call outcome is passed
in as `visionOutcome`; the random draws of the fallback as `draws`. -/
def analyzeImageWithGoogleVision (visionOutcome : Except String DetectionRecord)
    (draws : FallbackDraws) : AnalysisResult :=
  match visionOutcome with
  | .ok d =>
    match analyzeDetections d with
    | some r => .vision r
    | none => .fallback (generateFallbackAnalysis draws)
  | .error _ => .fallback (generateFallbackAnalysis draws)

/-- `analyzeImageWithCustomAI` (src/unnamed/part_000): on a successful
model call without an `error` field, the custom result is returned; on
any failure of the call (process error, non-zero exit, unparseable
output, timeout — all rejections of `callPhotographyModel`) or an `error`
field in the output, the catch block returns
`analyzeImageWithGoogleVision`. -/
def analyzeImageWithCustomAI (customOutcome : Except String ModelOutput)
    (visionOutcome : Except String DetectionRecord) (draws : FallbackDraws) : AnalysisResult :=
  match customOutcome with
  | .ok m =>
    match m.error with
    | some _ => analyzeImageWithGoogleVision visionOutcome draws
    | none => .custom (customResultOf m)
  | .error _ => analyzeImageWithGoogleVision visionOutcome draws

/-- The top-level dispatch of src/unnamed/part_000:
`USE_CUSTOM_MODEL === true` selects the custom-model path, otherwise
the Google Vision path. -/
def analyzeImageWithAI (useCustomModel : Bool)
    (customOutcome : Except String ModelOutput)
    (visionOutcome : Except String DetectionRecord) (draws : FallbackDraws) : AnalysisResult :=
  if useCustomModel then analyzeImageWithCustomAI customOutcome visionOutcome draws
  else analyzeImageWithGoogleVision visionOutcome draws

/- Temporary-file lifecycle of `callPhotographyModel`
(src/unnamed/part_000, lines 31-115). -/

/-- Whether the temporary image file written for the Python model still
exists. -/
structure TempFileState where
  tempFileExists : Bool
deriving Repr, DecidableEq

/-- The cleanup block run on each exit path:
`if (fs.existsSync(tempImagePath)) fs.unlinkSync(tempImagePath)`. -/
def cleanupTemp (st : TempFileState) : TempFileState :=
  if st.tempFileExists then { tempFileExists := false } else st

/-- The event that settles the `callPhotographyModel` promise: the child
process closed with an exit code (stdout accumulated), the process
emitted an error, or the watchdog timeout fired and killed it. -/
inductive ExitEvent where
  | closed (code : ℤ) (stdout : String)
  | processError (message : String)
  | timeout
deriving Repr, DecidableEq

def parseFailureMessage : String := "Failed to parse model output"

def execFailureMessage : String := "Model execution failed"

def timeoutMessage : String := "Model execution timeout"

/-- The settlement of `callPhotographyModel` for a given exit event,
threading the temp-file state: every handler first runs the cleanup
block, then resolves (exit code 0 with parseable stdout) or rejects.
`parseOutput` stands for `JSON.parse` on the accumulated stdout. -/
def callPhotographyModelExit (parseOutput : String → Option ModelOutput)
    (st : TempFileState) (ev : ExitEvent) : TempFileState × Except String ModelOutput :=
  match ev with
  | .closed code out =>
    let st2 := cleanupTemp st
    if code = 0 then
      match parseOutput out with
      | some m => (st2, Except.ok m)
      | none => (st2, Except.error parseFailureMessage)
    else (st2, Except.error execFailureMessage)
  | .processError msg => (cleanupTemp st, Except.error msg)
  | .timeout => (cleanupTemp st, Except.error timeoutMessage)

/- Helper lemmas shared by the claim theorems. -/

theorem clamp100_nonneg (s : ℤ) : 0 ≤ clamp100 s := by
  unfold clamp100; omega

theorem clamp100_le_100 (s : ℤ) : clamp100 s ≤ 100 := by
  unfold clamp100; omega

theorem clamp100_mono {s t : ℤ} (h : s ≤ t) : clamp100 s ≤ clamp100 t := by
  unfold clamp100; omega

theorem analyzeComposition_bounds {fs : List Face} {os : List DetectedObject}
    {ls : List Label} {c : ℤ} (h : analyzeComposition fs os ls = some c) :
    0 ≤ c ∧ c ≤ 100 := by
  cases fs with
  | nil =>
    simp only [analyzeComposition, Option.some.injEq] at h
    exact h ▸ ⟨clamp100_nonneg _, clamp100_le_100 _⟩
  | cons face rest =>
    cases hbp : face.boundingPoly with
    | none => simp [analyzeComposition, hbp] at h
    | some vs =>
      cases h0 : vs[0]? with
      | none => simp [analyzeComposition, hbp, h0] at h
      | some v0 =>
        cases h2 : vs[2]? with
        | none => simp [analyzeComposition, hbp, h0, h2] at h
        | some v2 =>
          simp only [analyzeComposition, hbp, h0, h2, Option.some.injEq] at h
          exact h ▸ ⟨clamp100_nonneg _, clamp100_le_100 _⟩

theorem analyzeFocus_bounds (os : List DetectedObject) :
    0 ≤ analyzeFocus os ∧ analyzeFocus os ≤ 100 := by
  unfold analyzeFocus
  split <;> exact ⟨clamp100_nonneg _, clamp100_le_100 _⟩

theorem analyzeExposure_bounds (cs : List ColorInfo) :
    0 ≤ analyzeExposure cs ∧ analyzeExposure cs ≤ 100 := by
  cases cs <;> exact ⟨clamp100_nonneg _, clamp100_le_100 _⟩

theorem analyzeColor_bounds (cs : List ColorInfo) :
    0 ≤ analyzeColor cs ∧ analyzeColor cs ≤ 100 := by
  cases cs <;> exact ⟨clamp100_nonneg _, clamp100_le_100 _⟩

/-- C1: for every detection input on which the analysis pipeline produces a
result, each of the four sub-scores is an integer in [0, 100] and the
overall score equals the rounded arithmetic mean of the four sub-scores.
(Sub-scores are integers by construction: every branch of every scoring
function adds integer constants and clamps.) -/
theorem subscores_bounded_overall_rounded_mean (d : DetectionRecord) (r : FullResult)
    (h : analyzeDetections d = some r) :
    (0 ≤ r.compositionScore ∧ r.compositionScore ≤ 100) ∧
    (0 ≤ r.focusScore ∧ r.focusScore ≤ 100) ∧
    (0 ≤ r.exposureScore ∧ r.exposureScore ≤ 100) ∧
    (0 ≤ r.colorScore ∧ r.colorScore ≤ 100) ∧
    r.overallScore =
      jsRound (((r.compositionScore + r.focusScore + r.exposureScore + r.colorScore : ℤ) : ℚ) / 4) := by
  unfold analyzeDetections at h
  cases hc : analyzeComposition d.faces d.objects d.labels with
  | none => rw [hc] at h; exact absurd h (by simp)
  | some c =>
    rw [hc] at h
    simp only [Option.some.injEq] at h
    subst h
    exact ⟨analyzeComposition_bounds hc, analyzeFocus_bounds _,
      analyzeExposure_bounds _, analyzeColor_bounds _, rfl⟩

/-- The all-empty detection record. -/
def emptyDetection : DetectionRecord := ⟨[], [], [], []⟩

/-- The concrete analysis result on the all-empty detection record:
composition 0, focus 50, exposure 50, color 30, overall round(130/4) = 33,
with the four deficiency recommendations capped at three. -/
def emptyVisionResult : FullResult where
  analysisMethod := googleVisionTag
  compositionScore := 0
  focusScore := 50
  exposureScore := 50
  colorScore := 30
  overallScore := 33
  composition := ⟨"Needs Improvement", "Slightly Unbalanced", "Subtle", "Fair"⟩
  focus := ⟨"Slightly Soft", "Shallow", "Centered"⟩
  exposure := ⟨"Needs Adjustment", "Preserved", "Acceptable", "Limited"⟩
  color := ⟨"Needs Adjustment", "Low", "Moderate"⟩
  recommendations := [recComposition, recFocus, recExposure]

theorem analyzeDetections_empty : analyzeDetections emptyDetection = some emptyVisionResult := by
  norm_num [analyzeDetections, emptyDetection, emptyVisionResult, analyzeComposition,
    analyzeFocus, analyzeExposure, analyzeColor, clamp100, overallOf, jsRound,
    generateRecommendations, hasLandscapeLabel, compositionDescOf, focusDescOf,
    exposureDescOf, colorDescOf, googleVisionTag]

/-- Witness for C1 at the all-empty detection record. -/
theorem subscores_witness :
    analyzeDetections emptyDetection = some emptyVisionResult ∧
    ((0 ≤ emptyVisionResult.compositionScore ∧ emptyVisionResult.compositionScore ≤ 100) ∧
     (0 ≤ emptyVisionResult.focusScore ∧ emptyVisionResult.focusScore ≤ 100) ∧
     (0 ≤ emptyVisionResult.exposureScore ∧ emptyVisionResult.exposureScore ≤ 100) ∧
     (0 ≤ emptyVisionResult.colorScore ∧ emptyVisionResult.colorScore ≤ 100) ∧
     emptyVisionResult.overallScore =
       jsRound (((emptyVisionResult.compositionScore + emptyVisionResult.focusScore +
         emptyVisionResult.exposureScore + emptyVisionResult.colorScore : ℤ) : ℚ) / 4)) :=
  ⟨analyzeDetections_empty,
    subscores_bounded_overall_rounded_mean emptyDetection emptyVisionResult analyzeDetections_empty⟩

/-- A face record whose bounding polygon is absent. -/
def faceWithoutPoly : Face := ⟨none⟩

/-- C2 counterexample: a detection whose only face lacks its bounding
polygon makes `analyzeComposition` throw a TypeError (modelled as `none`),
so the scoring functions do not tolerate every missing optional sub-field
as the claim states. -/
theorem composition_throws_on_missing_poly :
    analyzeComposition [faceWithoutPoly] [] [] = none := rfl

/-- A face record whose bounding polygon has fewer than three vertices. -/
def faceShortPoly : Face := ⟨some [⟨0, 0⟩, ⟨1, 1⟩]⟩

/-- Companion to the C2 counterexample: a two-vertex polygon also throws. -/
theorem composition_throws_on_short_poly :
    analyzeComposition [faceShortPoly] [] [] = none := rfl

/-- The well-formedness condition under which the faces branch of
`analyzeComposition` does not throw: either no face, or the first face has
a bounding polygon with at least three vertices. -/
def facesWellFormed : List Face → Prop
  | [] => True
  | f :: _ => ∃ vs, f.boundingPoly = some vs ∧ 3 ≤ vs.length

/-- C2 (amended): each scoring function returns a valid bounded score and
never throws for every input in which any field may be an empty sequence,
provided a present first face carries a bounding polygon with at least
three vertices (the counterexample shows the proviso is necessary). -/
theorem scoring_safe_on_wellformed (fs : List Face) (os : List DetectedObject)
    (ls : List Label) (cs : List ColorInfo) (h : facesWellFormed fs) :
    (∃ c, analyzeComposition fs os ls = some c ∧ 0 ≤ c ∧ c ≤ 100) ∧
    (0 ≤ analyzeFocus os ∧ analyzeFocus os ≤ 100) ∧
    (0 ≤ analyzeExposure cs ∧ analyzeExposure cs ≤ 100) ∧
    (0 ≤ analyzeColor cs ∧ analyzeColor cs ≤ 100) := by
  refine ⟨?_, analyzeFocus_bounds _, analyzeExposure_bounds _, analyzeColor_bounds _⟩
  cases fs with
  | nil =>
    exact ⟨_, rfl, clamp100_nonneg _, clamp100_le_100 _⟩
  | cons face rest =>
    obtain ⟨vs, hbp, hlen⟩ := h
    have h0 : vs[0]? = some (vs.get ⟨0, by omega⟩) := by
      rw [List.getElem?_eq_getElem (by omega)]
      rfl
    have h2 : vs[2]? = some (vs.get ⟨2, by omega⟩) := by
      rw [List.getElem?_eq_getElem (by omega)]
      rfl
    cases hc : analyzeComposition (face :: rest) os ls with
    | none => simp [analyzeComposition, hbp, h0, h2] at hc
    | some c => exact ⟨c, rfl, analyzeComposition_bounds hc⟩

/-- A bounding box whose center is the normalized image center (0.5, 0.5). -/
def centeredVertices : List Vertex := [⟨0, 0⟩, ⟨1, 0⟩, ⟨1, 1⟩, ⟨0, 1⟩]

/-- A face with the centered bounding box. -/
def faceCentered : Face := ⟨some centeredVertices⟩

/-- Witness for C2 (amended) at a detection with one well-formed face. -/
theorem scoring_safe_witness :
    facesWellFormed [faceCentered] ∧
    ((∃ c, analyzeComposition [faceCentered] [] [] = some c ∧ 0 ≤ c ∧ c ≤ 100) ∧
     (0 ≤ analyzeFocus [] ∧ analyzeFocus [] ≤ 100) ∧
     (0 ≤ analyzeExposure [] ∧ analyzeExposure [] ≤ 100) ∧
     (0 ≤ analyzeColor [] ∧ analyzeColor [] ≤ 100)) :=
  ⟨⟨centeredVertices, rfl, by decide⟩,
    scoring_safe_on_wellformed [faceCentered] [] [] []
      ⟨centeredVertices, rfl, by decide⟩⟩

theorem fallbackScore_bounds {r : ℚ} (h0 : 0 ≤ r) (h1 : r < 1) :
    fallbackBase ≤ fallbackScore r ∧ fallbackScore r < fallbackBase + fallbackVariance := by
  unfold fallbackScore fallbackBase fallbackVariance jsFloor
  constructor
  · have : (0 : ℤ) ≤ ⌊r * ((40 : ℤ) : ℚ)⌋ := by
      rw [Int.le_floor]
      push_cast
      positivity
    omega
  · have : ⌊r * ((40 : ℤ) : ℚ)⌋ < 40 := by
      rw [Int.floor_lt]
      push_cast
      nlinarith
    omega

/-- C3: for random draws in [0, 1), the fallback generator returns a result
tagged FALLBACK whose four sub-scores lie in the configured range
[base, base + variance) = [40, 80), whose overall score is the rounded
mean of the four sub-scores, and whose recommendation list is the fixed
canned 3-item list. -/
theorem fallback_result_spec (dr : FallbackDraws)
    (h1 : 0 ≤ dr.r1 ∧ dr.r1 < 1) (h2 : 0 ≤ dr.r2 ∧ dr.r2 < 1)
    (h3 : 0 ≤ dr.r3 ∧ dr.r3 < 1) (h4 : 0 ≤ dr.r4 ∧ dr.r4 < 1) :
    (generateFallbackAnalysis dr).analysisMethod = fallbackTag ∧
    (fallbackBase ≤ (generateFallbackAnalysis dr).compositionScore ∧
      (generateFallbackAnalysis dr).compositionScore < fallbackBase + fallbackVariance) ∧
    (fallbackBase ≤ (generateFallbackAnalysis dr).focusScore ∧
      (generateFallbackAnalysis dr).focusScore < fallbackBase + fallbackVariance) ∧
    (fallbackBase ≤ (generateFallbackAnalysis dr).exposureScore ∧
      (generateFallbackAnalysis dr).exposureScore < fallbackBase + fallbackVariance) ∧
    (fallbackBase ≤ (generateFallbackAnalysis dr).colorScore ∧
      (generateFallbackAnalysis dr).colorScore < fallbackBase + fallbackVariance) ∧
    (generateFallbackAnalysis dr).overallScore =
      jsRound ((((generateFallbackAnalysis dr).compositionScore +
        (generateFallbackAnalysis dr).focusScore +
        (generateFallbackAnalysis dr).exposureScore +
        (generateFallbackAnalysis dr).colorScore : ℤ) : ℚ) / 4) ∧
    (generateFallbackAnalysis dr).recommendations = fallbackRecommendations ∧
    (generateFallbackAnalysis dr).recommendations.length = 3 :=
  ⟨rfl, fallbackScore_bounds h1.1 h1.2, fallbackScore_bounds h2.1 h2.2,
    fallbackScore_bounds h3.1 h3.2, fallbackScore_bounds h4.1 h4.2, rfl, rfl, rfl⟩

/-- Four concrete random draws in [0, 1). -/
def drMid : FallbackDraws := ⟨0, 1/2, 99/100, 1/4⟩

/-- Witness for C3 at four concrete draws. -/
theorem fallback_result_witness :
    ((0 : ℚ) ≤ drMid.r1 ∧ drMid.r1 < 1) ∧ ((0 : ℚ) ≤ drMid.r2 ∧ drMid.r2 < 1) ∧
    ((0 : ℚ) ≤ drMid.r3 ∧ drMid.r3 < 1) ∧ ((0 : ℚ) ≤ drMid.r4 ∧ drMid.r4 < 1) ∧
    ((generateFallbackAnalysis drMid).analysisMethod = fallbackTag ∧
     (fallbackBase ≤ (generateFallbackAnalysis drMid).compositionScore ∧
       (generateFallbackAnalysis drMid).compositionScore < fallbackBase + fallbackVariance) ∧
     (fallbackBase ≤ (generateFallbackAnalysis drMid).focusScore ∧
       (generateFallbackAnalysis drMid).focusScore < fallbackBase + fallbackVariance) ∧
     (fallbackBase ≤ (generateFallbackAnalysis drMid).exposureScore ∧
       (generateFallbackAnalysis drMid).exposureScore < fallbackBase + fallbackVariance) ∧
     (fallbackBase ≤ (generateFallbackAnalysis drMid).colorScore ∧
       (generateFallbackAnalysis drMid).colorScore < fallbackBase + fallbackVariance) ∧
     (generateFallbackAnalysis drMid).overallScore =
       jsRound ((((generateFallbackAnalysis drMid).compositionScore +
         (generateFallbackAnalysis drMid).focusScore +
         (generateFallbackAnalysis drMid).exposureScore +
         (generateFallbackAnalysis drMid).colorScore : ℤ) : ℚ) / 4) ∧
     (generateFallbackAnalysis drMid).recommendations = fallbackRecommendations ∧
     (generateFallbackAnalysis drMid).recommendations.length = 3) :=
  ⟨by norm_num [drMid], by norm_num [drMid], by norm_num [drMid], by norm_num [drMid],
    fallback_result_spec drMid (by norm_num [drMid]) (by norm_num [drMid])
      (by norm_num [drMid]) (by norm_num [drMid])⟩

/-- C4: the recommendation generator returns at most 3 strings, and when
no deficiency rule, subject rule or combination rule fires it returns
exactly the single default positive-reinforcement string. -/
theorem recommendations_cap_and_default (c f e k : ℤ) (ls : List Label)
    (fs : List Face) (os : List DetectedObject) :
    (generateRecommendations c f e k ls fs os).length ≤ 3 ∧
    (65 ≤ c → 65 ≤ f → 65 ≤ e → 65 ≤ k → fs = [] → hasLandscapeLabel ls = false →
      os.length ≤ 3 → ¬(80 ≤ c ∧ 80 ≤ f) →
      generateRecommendations c f e k ls fs os = [recDefault]) := by
  constructor
  · exact List.length_take_le _ _
  · intro hc hf he hk hfs hls hos hcomb
    subst hfs
    have hc2 : ¬(c < 65) := by omega
    have hf2 : ¬(f < 65) := by omega
    have he2 : ¬(e < 65) := by omega
    have hk2 : ¬(k < 65) := by omega
    have hos2 : ¬(3 < os.length) := by omega
    have hraw : ¬(e < 60 ∧ k < 60) := by omega
    simp [generateRecommendations, hc2, hf2, he2, hk2, hls, hos2, hcomb, hraw]

/-- Witness for C4: all sub-scores 70 with empty detections fire no rule,
so exactly the default string is returned, within the cap of 3. -/
theorem recommendations_default_witness :
    (generateRecommendations 70 70 70 70 [] [] []).length ≤ 3 ∧
    generateRecommendations 70 70 70 70 [] [] [] = [recDefault] :=
  ⟨(recommendations_cap_and_default 70 70 70 70 [] [] []).1,
    (recommendations_cap_and_default 70 70 70 70 [] [] []).2 (by decide) (by decide)
      (by decide) (by decide) rfl rfl (by decide) (by decide)⟩

/-- C5: the scoring pipeline is deterministic: identical detection records
yield identical sub-scores, overall score, categorical descriptors and
recommendations (the randomized fallback path takes no part in
`analyzeDetections`). -/
theorem scoring_deterministic (d1 d2 : DetectionRecord) (h : d1 = d2) :
    analyzeDetections d1 = analyzeDetections d2 := by rw [h]

/-- Witness for C5 at the all-empty detection record. -/
theorem scoring_deterministic_witness :
    emptyDetection = emptyDetection ∧
    analyzeDetections emptyDetection = analyzeDetections emptyDetection :=
  ⟨rfl, scoring_deterministic emptyDetection emptyDetection rfl⟩

/-- C6: for object lists of equal positive length, raising the mean
object-detection confidence from 0.3 to 0.9 does not decrease the focus
sub-score. -/
theorem focus_monotone_raising_confidence (os1 os2 : List DetectedObject)
    (hlen : os1.length = os2.length) (hne : 0 < os1.length)
    (h1 : meanScore os1 = 3/10) (h2 : meanScore os2 = 9/10) :
    analyzeFocus os1 ≤ analyzeFocus os2 := by
  have hne2 : 0 < os2.length := hlen ▸ hne
  unfold analyzeFocus
  rw [if_pos hne, if_pos hne2, h1, h2, hlen]
  norm_num
  by_cases hl : 3 < os2.length
  · simp only [hl, if_true]
    exact clamp100_mono (by omega)
  · simp only [hl, if_false]
    exact clamp100_mono (by omega)

/-- A single object detected at confidence 0.3. -/
def objLow : DetectedObject := ⟨"subject", 3/10⟩

/-- A single object detected at confidence 0.9. -/
def objHigh : DetectedObject := ⟨"subject", 9/10⟩

/-- Witness for C6 at singleton object lists of confidence 0.3 and 0.9. -/
theorem focus_monotone_witness :
    [objLow].length = [objHigh].length ∧ 0 < [objLow].length ∧
    meanScore [objLow] = 3/10 ∧ meanScore [objHigh] = 9/10 ∧
    analyzeFocus [objLow] ≤ analyzeFocus [objHigh] :=
  ⟨rfl, by decide, by norm_num [meanScore, objLow], by norm_num [meanScore, objHigh],
    focus_monotone_raising_confidence [objLow] [objHigh] rfl (by decide)
      (by norm_num [meanScore, objLow]) (by norm_num [meanScore, objHigh])⟩

/-- C7: a detection with one face whose bounding-box center is the
normalized (0.5, 0.5) and no objects, colors or labels earns the
face-present bonus plus both rule-of-thirds bonuses (40 + 15 + 15), while
focus, exposure and color return their no-data baselines 50, 50 and 30. -/
theorem centered_face_scenario (vs : List Vertex) (v0 v2 : Vertex)
    (h0 : vs[0]? = some v0) (h2 : vs[2]? = some v2)
    (hx : (v0.x + v2.x) / 2 = 1/2) (hy : (v0.y + v2.y) / 2 = 1/2) :
    analyzeComposition [⟨some vs⟩] [] [] = some (40 + 15 + 15) ∧
    analyzeFocus [] = 50 ∧ analyzeExposure [] = 50 ∧ analyzeColor [] = 30 := by
  refine ⟨?_, rfl, rfl, rfl⟩
  simp only [analyzeComposition, h0, h2]
  rw [hx, hy]
  norm_num [clamp100]

/-- Witness for C7 at the concrete centered bounding box. -/
theorem centered_face_witness :
    centeredVertices[0]? = some ⟨0, 0⟩ ∧ centeredVertices[2]? = some ⟨1, 1⟩ ∧
    (((0 : ℚ) + 1) / 2 = 1/2) ∧
    (analyzeComposition [⟨some centeredVertices⟩] [] [] = some (40 + 15 + 15) ∧
     analyzeFocus [] = 50 ∧ analyzeExposure [] = 50 ∧ analyzeColor [] = 30) := by
  refine ⟨rfl, rfl, by norm_num, ?_⟩
  exact centered_face_scenario centeredVertices ⟨0, 0⟩ ⟨1, 1⟩ rfl rfl
    (by norm_num) (by norm_num)

/-- C8: when the custom-model backend is selected and its call fails (or
its output carries an error field), the analysis equals the Google Vision
path; on that path a usable detection yields the vision-tagged result,
and only when the vision path also fails does the mock fallback generator
produce the result: a chained, not flat, fallback. -/
theorem custom_model_chained_fallback (msg : String)
    (visionOutcome : Except String DetectionRecord) (draws : FallbackDraws) :
    analyzeImageWithAI true (Except.error msg) visionOutcome draws =
      analyzeImageWithGoogleVision visionOutcome draws ∧
    (∀ m : ModelOutput, ∀ emsg : String, m.error = some emsg →
      analyzeImageWithAI true (Except.ok m) visionOutcome draws =
        analyzeImageWithGoogleVision visionOutcome draws) ∧
    (∀ d r, visionOutcome = Except.ok d → analyzeDetections d = some r →
      analyzeImageWithAI true (Except.error msg) visionOutcome draws =
        AnalysisResult.vision r) ∧
    (∀ vmsg, visionOutcome = Except.error vmsg →
      analyzeImageWithAI true (Except.error msg) visionOutcome draws =
        AnalysisResult.fallback (generateFallbackAnalysis draws)) := by
  refine ⟨rfl, ?_, ?_, ?_⟩
  · intro m emsg hm
    simp [analyzeImageWithAI, analyzeImageWithCustomAI, hm]
  · intro d r hv hr
    subst hv
    simp [analyzeImageWithAI, analyzeImageWithCustomAI, analyzeImageWithGoogleVision, hr]
  · intro vmsg hv
    subst hv
    rfl

/-- Witness for C8: with both the custom model and the vision call failed,
the dispatched analysis is the fallback result. -/
theorem chained_fallback_witness :
    (Except.error ("vision down") : Except String DetectionRecord) =
      Except.error ("vision down") ∧
    analyzeImageWithAI true (Except.error ("model down"))
      (Except.error ("vision down")) drMid =
      AnalysisResult.fallback (generateFallbackAnalysis drMid) :=
  ⟨rfl, (custom_model_chained_fallback ("model down") (Except.error ("vision down")) drMid).2.2.2
    ("vision down") rfl⟩

/-- C9: on every exit path of the custom-model call: close with exit code
0 (parseable or not), close with non-zero exit code, process error, and
timeout kill, the temporary image file no longer exists once the promise
settles. -/
theorem temp_file_removed_on_every_exit (parseOutput : String → Option ModelOutput)
    (st : TempFileState) (ev : ExitEvent) :
    ((callPhotographyModelExit parseOutput st ev).1).tempFileExists = false := by
  have hclean : ∀ s : TempFileState, (cleanupTemp s).tempFileExists = false := by
    intro s
    by_cases h : s.tempFileExists <;> simp [cleanupTemp, h]
  cases ev with
  | closed code out =>
    simp only [callPhotographyModelExit]
    by_cases hcode : code = 0
    · rw [if_pos hcode]
      cases parseOutput out <;> exact hclean st
    · rw [if_neg hcode]
      exact hclean st
  | processError m => exact hclean st
  | timeout => exact hclean st

/-- C10: when at least one face is present, the objects list has no
influence on the composition score: the object-count bonuses live only in
the no-face branch. -/
theorem composition_ignores_objects_with_face (fs : List Face)
    (os1 os2 : List DetectedObject) (ls : List Label) (h : fs ≠ []) :
    analyzeComposition fs os1 ls = analyzeComposition fs os2 ls := by
  cases fs with
  | nil => exact absurd rfl h
  | cons face rest => rfl

/-- Witness for C10: a one-face detection scores the same composition with
and without an object present. -/
theorem composition_ignores_objects_witness :
    [faceCentered] ≠ ([] : List Face) ∧
    analyzeComposition [faceCentered] [objLow] [] = analyzeComposition [faceCentered] [] [] :=
  ⟨List.cons_ne_nil _ _,
    composition_ignores_objects_with_face [faceCentered] [objLow] [] [] (List.cons_ne_nil _ _)⟩

end ImageAnalysis
